import Mathlib

set_option autoImplicit false

namespace SnowML

/-!
Shallow embedding of the model packaging and handler-dispatch subsystem of
snowflake-ml-python, together with the dependency utilities in
`snowflake/ml/_internal/env_utils.py`.

Modelling conventions:
* Python exceptions become an explicit `PyError` inductive; fallible code
  returns `Except PyError _`.
* Python dicts (which preserve insertion order) become association lists; a
  lookup takes the first matching entry.
* The file system is an association list from path strings to blobs; a write
  is a cons, so the newest write shadows older ones. Loads additionally
  return the list of blob paths they attempted to open, and thread the file
  system through so that read-only behaviour is a provable statement.
* Package versions are version strings; a requirement carries a name and a
  boolean version-specifier predicate.
* Definitions whose doc comment starts with "Modelled from the spec:" embed
  repository code that is not under src/ and are written from the wording of
  the specification.
-/

/-- Python exception classes that appear in the embedded code. -/
inductive PyError where
  | valueError (msg : String)
  | fileNotFoundError (path : String)
  | duplicateDependencyError (msg : String)
  | duplicateDependencyInMultipleChannelsError (msg : String)
  | assertionError
  | attributeError (name : String)
  | keyError (key : String)
  | unpicklingError
  | unsupportedModelTypeError (msg : String)
  | recursionError

/-- Classes of errors are distinguished by constructor; this tag names the class
of a `PyError`, mirroring `type(e)` in Python. -/
inductive PyErrorClass where
  | valueErrorClass
  | fileNotFoundErrorClass
  | duplicateDependencyErrorClass
  | duplicateDependencyInMultipleChannelsErrorClass
  | assertionErrorClass
  | attributeErrorClass
  | keyErrorClass
  | unpicklingErrorClass
  | unsupportedModelTypeErrorClass
  | recursionErrorClass
deriving DecidableEq

def PyError.cls : PyError → PyErrorClass
  | .valueError _ => .valueErrorClass
  | .fileNotFoundError _ => .fileNotFoundErrorClass
  | .duplicateDependencyError _ => .duplicateDependencyErrorClass
  | .duplicateDependencyInMultipleChannelsError _ => .duplicateDependencyInMultipleChannelsErrorClass
  | .assertionError => .assertionErrorClass
  | .attributeError _ => .attributeErrorClass
  | .keyError _ => .keyErrorClass
  | .unpicklingError => .unpicklingErrorClass
  | .unsupportedModelTypeError _ => .unsupportedModelTypeErrorClass
  | .recursionError => .recursionErrorClass

/-- Association-list lookup with string keys, mirroring a Python dict access
that returns `None` when the key is absent. -/
def lookupA {α : Type} (l : List (String × α)) (k : String) : Option α :=
  (l.find? (fun e => e.1 == k)).map (fun e => e.2)

/-- Association-list update mirroring a Python dict key assignment: replace the
entry in place when the key exists, otherwise append a new entry at the end. -/
def assocSet {α : Type} : List (String × α) → String → α → List (String × α)
  | [], k, v => [(k, v)]
  | (k0, v0) :: rest, k, v =>
    if k0 == k then (k0, v) :: rest else (k0, v0) :: assocSet rest k v

/-! ## env_utils: requirements and dependency lists
(`snowflake/ml/_internal/env_utils.py`) -/

/-- Package version, kept as the version string. -/
abbrev Version := String

/-- Model of `packaging.requirements.Requirement`: a canonical package name and
the version specifier, embedded as a predicate on versions (the textual shape
of the specifier is irrelevant to the claims). -/
structure Requirement where
  name : String
  spec : Version → Bool

/-- Embeds `_check_if_requirement_same`: two requirements are the same package
iff their names coincide. -/
def _check_if_requirement_same (req_a req_b : Requirement) : Bool :=
  req_a.name == req_b.name

/-- Embeds `append_requirement_list`: scan the list for a requirement of the
same package; raise `DuplicateDependencyError` when one exists, otherwise
append. -/
def append_requirement_list (req_list : List Requirement) (p_req : Requirement) :
    Except PyError (List Requirement) :=
  match req_list.find? (fun req => _check_if_requirement_same p_req req) with
  | some req =>
      .error (.duplicateDependencyError
        ("Found duplicate dependencies in pip requirements: " ++ req.name ++ " and "
          ++ p_req.name ++ "."))
  | none => .ok (req_list ++ [p_req])

/-- Conda dependency dict: channel name to list of requirements, in insertion
order (Python `DefaultDict[str, List[Requirement]]`). -/
abbrev CondaDeps := List (String × List Requirement)

/-- First channel entry holding a requirement of the same package, together
with that requirement; mirrors the nested scan in `append_conda_dependency`. -/
def findDuplicateDep : CondaDeps → Requirement → Option (String × Requirement)
  | [], _ => none
  | (chan, reqs) :: rest, p_req =>
    match reqs.find? (fun req => _check_if_requirement_same p_req req) with
    | some req => some (chan, req)
    | none => findDuplicateDep rest p_req

/-- Defaultdict-style append: extend the channel entry if present, otherwise
add a fresh channel at the end. -/
def condaDepsAppend : CondaDeps → String → Requirement → CondaDeps
  | [], chan, req => [(chan, [req])]
  | (c, rs) :: rest, chan, req =>
    if c = chan then (c, rs ++ [req]) :: rest
    else (c, rs) :: condaDepsAppend rest chan req

/-- Embeds `append_conda_dependency`: raise when the package already occurs in
some channel (a different channel gives the multiple-channels error), else
append to the target channel. -/
def append_conda_dependency (conda_chan_deps : CondaDeps)
    (p_chan_dep : String × Requirement) : Except PyError CondaDeps :=
  match findDuplicateDep conda_chan_deps p_chan_dep.2 with
  | some (chan_channel, chan_req) =>
    if chan_channel ≠ p_chan_dep.1 then
      .error (.duplicateDependencyInMultipleChannelsError
        ("Found duplicate dependencies: " ++ chan_req.name ++ " in channel " ++ chan_channel
          ++ " and " ++ p_chan_dep.2.name ++ " in channel " ++ p_chan_dep.1 ++ "."))
    else
      .error (.duplicateDependencyError
        ("Found duplicate dependencies in channel " ++ chan_channel ++ ": " ++ chan_req.name
          ++ " and " ++ p_chan_dep.2.name ++ "."))
  | none => .ok (condaDepsAppend conda_chan_deps p_chan_dep.1 p_chan_dep.2)

/-- Modelled from the spec: `ModelMetadata._include_if_absent` is not under
src/ (only its caller in `_handlers/pytorch.py` is); per the spec, the
metadata dependency set is "merged without duplication; adding a dependency
twice for the same package name is a no-op, not an error". It delegates to
`append_conda_dependency` and swallows the duplicate-dependency errors. -/
def _include_if_absent (deps : CondaDeps) (dep : String × Requirement) : CondaDeps :=
  match append_conda_dependency deps dep with
  | .ok newDeps => newDeps
  | .error _ => deps

/-! ## env_utils: the Snowflake conda package cache
(`validate_requirements_in_snowflake_conda_channel` and
`_SNOWFLAKE_CONDA_PACKAGE_CACHE`) -/

/-- The process-wide `_SNOWFLAKE_CONDA_PACKAGE_CACHE`: package name to the list
of versions seen for it. -/
abbrev PkgCache := List (String × List Version)

/-- Cache row insertion mirroring
`cache[name] = cache.get(name, []) + [ver]`: extend the existing entry in
place, or add a new entry. -/
def cacheAppendRow : PkgCache → String → Version → PkgCache
  | [], n, v => [(n, [v])]
  | (m, vs) :: rest, n, v =>
    if m == n then (m, vs ++ [v]) :: rest
    else (m, vs) :: cacheAppendRow rest n v

/-- Versions in the cache entry for `req.name` that meet the requirement
specifier; mirrors `req.specifier.filter(set(cache.get(req.name, [])))`. -/
def availableVersions (cache : PkgCache) (req : Requirement) : List Version :=
  ((lookupA cache req.name).getD []).filter req.spec

/-- Final loop of `validate_requirements_in_snowflake_conda_channel`: `None`
when some requirement has no available version in the cache, otherwise the
sorted list of requirement strings (a requirement prints as its name here,
since specifier text is not modelled). -/
def collectValidatedReqs (cache : PkgCache) (reqs : List Requirement) :
    Option (List String) :=
  if reqs.all (fun req => !(availableVersions cache req).isEmpty) then
    some ((reqs.map (fun r => r.name)).insertionSort (fun a b => a ≤ b))
  else none

/-- Embeds `validate_requirements_in_snowflake_conda_channel`. The database is
abstracted as `queryRows`: `none` models the `DataError` branch (the SQL
validator raises before any row is consumed), `some rows` the returned
`(package_name, version)` rows. The function returns the updated cache, the
list of requirements that triggered a live lookup (`reqs_to_request`), and the
validated result. -/
def validate_requirements_in_snowflake_conda_channel
    (cache : PkgCache) (reqs : List Requirement)
    (queryRows : Option (List (String × Version))) :
    PkgCache × List Requirement × Option (List String) :=
  let reqs_to_request := reqs.filter (fun req => (lookupA cache req.name).isNone)
  if reqs_to_request.isEmpty then
    (cache, reqs_to_request, collectValidatedReqs cache reqs)
  else
    match queryRows with
    | none => (cache, reqs_to_request, none)
    | some rows =>
      let cache1 := rows.foldl (fun c row => cacheAppendRow c row.1 row.2) cache
      (cache1, reqs_to_request, collectValidatedReqs cache1 reqs)

/-- Append-only refinement between two cache states: whatever an entry held
before, it still holds afterwards, possibly with versions appended. -/
def cacheExtends (c c' : PkgCache) : Prop :=
  ∀ n vs, lookupA c n = some vs → ∃ ws, lookupA c' n = some (vs ++ ws)

/-! ## Tensors, models and handler detection -/

/-- One-dimensional integer tensor (element dtype is irrelevant to the
claims). -/
abbrev Tensor := List Int

/-- Return value of a PyTorch target method: either a single tensor or a
sequence of tensors (`pytorch.py` normalizes the former into the latter). -/
inductive TorchResult where
  | tensor (t : Tensor)
  | tensors (ts : List Tensor)

/-- Embeds the `if isinstance(res, torch.Tensor): res = [res]` normalization. -/
def TorchResult.toTensorList : TorchResult → List Tensor
  | .tensor t => [t]
  | .tensors ts => ts

/-- Model of a Python object living in the `torch.nn.Module` hierarchy: the
two `LazyType(...).isinstance` checks of the handler become fields, and
`getattr` over its callable methods becomes an association list. -/
structure PyTorchModule where
  isTorchNNModule : Bool
  isTorchScriptModule : Bool
  methods : List (String × (List Tensor → TorchResult))

/-- Supported in-memory model object (`model_types.SupportedModelType`). A
custom model carries its `ModelContext`: artifact URIs and owned sub-model
references. -/
inductive SupportedModel where
  | torchModel (m : PyTorchModule)
  | customModel (artifacts : List (String × String))
      (model_refs : List (String × SupportedModel))
  | sklearnModel (coef : List ℚ) (intercept : ℚ)

/-- Embeds `LazyType("torch.nn.Module").isinstance`: only objects of the torch
hierarchy can be `nn.Module` instances. -/
def isTorchNNModuleInstance : SupportedModel → Bool
  | .torchModel m => m.isTorchNNModule
  | _ => false

/-- Embeds `LazyType("torch.jit.ScriptModule").isinstance`. -/
def isTorchScriptModuleInstance : SupportedModel → Bool
  | .torchModel m => m.isTorchScriptModule
  | _ => false

/-- Embeds `_PyTorchHandler.can_handle` (`_handlers/pytorch.py`): an
`nn.Module` instance that is not a `ScriptModule` instance. -/
def pytorch_can_handle (model : SupportedModel) : Bool :=
  isTorchNNModuleInstance model && !(isTorchScriptModuleInstance model)

/-- Embeds `_CustomModelHandler.can_handle` (`_handlers/custom.py`):
`LazyType("...custom_model.CustomModel").isinstance`. -/
def custom_can_handle : SupportedModel → Bool
  | .customModel _ _ => true
  | _ => false

/-! ## Data frames, signatures and the sample-data adapters -/

/-- Named feature of a model signature (dtype and shape are irrelevant to the
claims). -/
structure FeatureSpec where
  name : String
deriving DecidableEq

/-- Embeds `model_signature.ModelSignature`: ordered input and output feature
lists. -/
structure ModelSignature where
  inputs : List FeatureSpec
  outputs : List FeatureSpec
deriving DecidableEq

/-- Tabular input: named columns of optional cells; `none` is a null/missing
value (`pandas` NaN). -/
structure DataFrame where
  cols : List (String × List (Option Int))
deriving DecidableEq

/-- Embeds `X.isnull().any(axis=None)`. -/
def DataFrame.hasNull (X : DataFrame) : Bool :=
  X.cols.any (fun c => c.2.any (fun v => v.isNone))

/-- Modelled from the spec: `SeqOfPyTorchTensorHandler.convert_from_df`
(`model/_signatures/pytorch_handler.py`, not under src/) is the per-framework
sample-data adapter converting tabular input to the native tensor sequence:
one tensor per declared input feature, in declared order (nulls are excluded
by the caller before conversion; a residual null reads as 0 here). -/
def convert_from_df (X : DataFrame) (features : List FeatureSpec) : List Tensor :=
  features.map (fun f =>
    ((lookupA X.cols f.name).getD []).map (fun v => v.getD 0))

/-- Modelled from the spec: `SeqOfPyTorchTensorHandler.convert_to_df` (not
under src/) converts the native output tensors back to a data frame with
positional column names. -/
def convert_to_df (ts : List Tensor) : DataFrame :=
  ⟨ts.enum.map (fun p => ("output_feature_" ++ toString p.1, p.2.map some))⟩

/-- Modelled from the spec: `model_signature_utils.rename_pandas_df` (not
under src/) renames the output columns to the declared output feature
names. -/
def rename_pandas_df (data : DataFrame) (features : List FeatureSpec) : DataFrame :=
  ⟨(data.cols.zip features).map (fun p => (p.2.name, p.1.2))⟩

/-- Observable steps of a synthesized wrapper method, used to state that the
null check happens before conversion and before the native call. -/
inductive FnEvent where
  | convertedInput
  | calledNativeMethod
deriving DecidableEq

/-- Embeds the synthesized method `fn` of
`_PyTorchHandler._load_as_custom_model.fn_factory` (`_handlers/pytorch.py`
lines 171-192): reject null-containing input, convert to tensors, call the
target method under `no_grad`, normalize and rename the output. The second
component records which of the observable steps ran. -/
def pytorch_custom_fn (raw_model : PyTorchModule) (signature : ModelSignature)
    (target_method : String) (use_gpu : Bool) (X : DataFrame) :
    Except PyError DataFrame × List FnEvent :=
  if X.hasNull then
    (.error (.valueError "Tensor cannot handle null values."), [])
  else
    let t := convert_from_df X signature.inputs
    let t := if use_gpu then t else t
    match lookupA raw_model.methods target_method with
    | none => (.error (.attributeError target_method), [.convertedInput])
    | some target =>
      let res := (target t).toTensorList
      (.ok (rename_pandas_df (convert_to_df res) signature.outputs),
        [.convertedInput, .calledNativeMethod])

/-! ## Metadata and the on-disk bundle -/

/-- Embeds `_ModelBlobMetadata`: discriminator tag, relative blob path and the
artifact name-to-relative-path mapping. -/
structure ModelBlobMetadata where
  name : String
  model_type : String
  path : String
  artifacts : List (String × String)

/-- Embeds the parts of `ModelMetadata` the claims depend on: the blob mapping
and the method signature mapping. -/
structure ModelMetadata where
  models : List (String × ModelBlobMetadata)
  signatures : List (String × ModelSignature)

/-- Serialized blob contents: a torch-saved module, a cloudpickled custom
model (its context sub-model names), a pickled sklearn estimator, or a raw
artifact file. -/
inductive Blob where
  | torchBlob (m : PyTorchModule)
  | pickleBlob (refNames : List String)
  | sklearnBlob (coef : List ℚ) (intercept : ℚ)
  | fileBlob (content : String)

/-- File system: path to blob, newest write first. -/
abbrev FS := List (String × Blob)

def FS.read (fs : FS) (p : String) : Option Blob :=
  (fs.find? (fun e => e.1 == p)).map (fun e => e.2)

def FS.write (fs : FS) (p : String) (b : Blob) : FS := (p, b) :: fs

/-- Embeds `os.path.join` for the single-separator joins used by the handlers. -/
def pathJoin (a b : String) : String := a ++ "/" ++ b

/-- Embeds `os.path.basename`: the last slash-separated component, i.e. the longest
slash-free suffix. -/
def basename (p : String) : String :=
  String.mk ((p.data.reverse.takeWhile (fun c => c != '/')).reverse)

/-! ## Loading -/

/-- Result of a load: a native torch module or a reconstructed custom model
(artifact absolute paths and loaded sub-models). -/
inductive LoadedModel where
  | torchLoaded (m : PyTorchModule)
  | customLoaded (artifacts : List (String × String))
      (models : List (String × LoadedModel))

/-- Embeds `_PyTorchHandler._load_model` (`_handlers/pytorch.py` lines
116-137). The `hasattr(model_meta, "models")` guard always holds in the typed
embedding. Returns the threaded file system, the list of blob paths whose
open was attempted, and the result; a blob of a foreign format fails the
`isinstance(m, torch.nn.Module)` assertion after unpickling. -/
def pytorch_load_model (name : String) (model_meta : ModelMetadata)
    (model_blobs_dir_path : String) (use_gpu : Bool) (fs : FS) :
    FS × List String × Except PyError PyTorchModule :=
  let model_blob_path := pathJoin model_blobs_dir_path name
  match lookupA model_meta.models name with
  | none =>
    (fs, [], .error (.valueError ("Blob of model " ++ name ++ " does not exist.")))
  | some model_blob_metadata =>
    let fullPath := pathJoin model_blob_path model_blob_metadata.path
    match fs.read fullPath with
    | none => (fs, [fullPath], .error (.fileNotFoundError fullPath))
    | some (.torchBlob m) =>
      let m := if use_gpu then m else m
      if m.isTorchNNModule then (fs, [fullPath], .ok m)
      else (fs, [fullPath], .error .assertionError)
    | some _ => (fs, [fullPath], .error .assertionError)

/-- Sub-model accumulator of the custom-handler load loop: threaded file
system, attempted opens, and the loaded sub-models (or the first error). -/
abbrev SubLoadAcc := FS × List String × Except PyError (List (String × LoadedModel))

/-- One iteration of the sub-model loop in `_CustomModelHandler._load_model`:
resolve the sub-model metadata (a missing key is a dict `KeyError`), dispatch
on its `model_type`, and extend the loaded map. -/
def custom_load_sub_step
    (loadHandler : String → String → ModelMetadata → String → FS →
      FS × List String × Except PyError LoadedModel)
    (model_meta : ModelMetadata) (model_blobs_dir_path : String)
    (acc : SubLoadAcc) (sub_model_name : String) : SubLoadAcc :=
  match acc with
  | (fsa, opens, .error e) => (fsa, opens, .error e)
  | (fsa, opens, .ok models) =>
    match lookupA model_meta.models sub_model_name with
    | none => (fsa, opens, .error (.keyError sub_model_name))
    | some subMeta =>
      let step := loadHandler subMeta.model_type sub_model_name model_meta
        model_blobs_dir_path fsa
      match step.2.2 with
      | .error e => (step.1, opens ++ step.2.1, .error e)
      | .ok sub =>
        (step.1, opens ++ step.2.1, .ok (models ++ [(sub_model_name, sub)]))

/-- Embeds `_CustomModelHandler._load_model` (`_handlers/custom.py` lines
59-92), parameterized by the recursive `model_handler._load_handler` dispatch
used for sub-models. Unpickling a non-custom blob yields an object without a
`context` attribute (raw bytes fail to unpickle at all). -/
def custom_load_model
    (loadHandler : String → String → ModelMetadata → String → FS →
      FS × List String × Except PyError LoadedModel)
    (name : String) (model_meta : ModelMetadata) (model_blobs_dir_path : String)
    (fs : FS) : FS × List String × Except PyError LoadedModel :=
  let model_blob_path := pathJoin model_blobs_dir_path name
  match lookupA model_meta.models name with
  | none =>
    (fs, [], .error (.valueError ("Blob of model " ++ name ++ " does not exist.")))
  | some model_blob_metadata =>
    let fullPath := pathJoin model_blob_path model_blob_metadata.path
    match fs.read fullPath with
    | none => (fs, [fullPath], .error (.fileNotFoundError fullPath))
    | some (.pickleBlob refNames) =>
      let artifacts := model_blob_metadata.artifacts.map
        (fun p => (p.1, pathJoin model_blob_path p.2))
      let loaded := refNames.foldl
        (custom_load_sub_step loadHandler model_meta model_blobs_dir_path)
        ((fs, [fullPath], .ok []) : SubLoadAcc)
      match loaded with
      | (fsr, opens, .ok models) => (fsr, opens, .ok (.customLoaded artifacts models))
      | (fsr, opens, .error e) => (fsr, opens, .error e)
    | some (.fileBlob _) => (fs, [fullPath], .error .unpicklingError)
    | some _ => (fs, [fullPath], .error (.attributeError "context"))

/-- Embeds `model_handler._load_handler` dispatch plus the handler `_load_model`
call, with fuel bounding the sub-model recursion depth (Python is bounded by
its call stack); an unknown `model_type` fails the `assert handler`
assertion. -/
def load_model_by_type (fuel : Nat) (model_type : String) (name : String)
    (model_meta : ModelMetadata) (model_blobs_dir_path : String) (fs : FS) :
    FS × List String × Except PyError LoadedModel :=
  match fuel with
  | 0 => (fs, [], .error .recursionError)
  | Nat.succ fuel =>
    if model_type == "custom" then
      custom_load_model (load_model_by_type fuel) name model_meta
        model_blobs_dir_path fs
    else if model_type == "pytorch" then
      let r := pytorch_load_model name model_meta model_blobs_dir_path false fs
      (r.1, r.2.1, r.2.2.map .torchLoaded)
    else (fs, [], .error .assertionError)

/-- Uniform wrapper object: the dynamically synthesized `_PyTorchModel` class
holds one method per declared signature, as a name-to-closure table. -/
structure CustomModelWrapper where
  methods : List (String × (DataFrame → Except PyError DataFrame × List FnEvent))

/-- Embeds `_PyTorchHandler._load_as_custom_model` (`_handlers/pytorch.py`
lines 139-210): load the raw module, then synthesize one method per entry of
`model_meta.signatures` via `fn_factory`. -/
def pytorch_load_as_custom_model (name : String) (model_meta : ModelMetadata)
    (model_blobs_dir_path : String) (use_gpu : Bool) (fs : FS) :
    FS × List String × Except PyError CustomModelWrapper :=
  let r := pytorch_load_model name model_meta model_blobs_dir_path use_gpu fs
  match r.2.2 with
  | .error e => (r.1, r.2.1, .error e)
  | .ok raw_model =>
    let type_method_dict := model_meta.signatures.map
      (fun p => (p.1, fun X => pytorch_custom_fn raw_model p.2 p.1 use_gpu X))
    (r.1, r.2.1, .ok ⟨type_method_dict⟩)

/-! ## Saving -/

/-- Modelled from the spec: `file_utils.copy_file_or_tree` is not under src/;
per the spec, artifact files are "copied (not moved) into the bundle", "not
symlinking", landing in the destination directory under the basename of the
source URI. A missing source is a file-system error. -/
def copy_file_or_tree (fs : FS) (uri : String) (dest_dir : String) :
    Except PyError FS :=
  match fs.read uri with
  | some b => .ok (FS.write fs (pathJoin dest_dir (basename uri)) b)
  | none => .error (.fileNotFoundError uri)

/-- The `_base._ModelHandler.MODEL_ARTIFACTS_DIR` constant (module not under
src/; the bundle layout section of the spec names the subdirectory
`artifacts/`). -/
def MODEL_ARTIFACTS_DIR : String := "artifacts"

/-- The `_base._ModelHandler.MODEL_BLOB_FILE` default used by the custom
handler (module not under src/). -/
def CUSTOM_MODEL_BLOB_FILE : String := "model.pkl"

/-- One iteration of the artifact-copy loop of
`_CustomModelHandler._save_model`. -/
def custom_copy_step (artifacts_path : String) (acc : Except PyError FS)
    (p : String × String) : Except PyError FS :=
  match acc with
  | .error e => .error e
  | .ok fsa => copy_file_or_tree fsa p.2 artifacts_path

/-- One iteration of the sub-model save loop of
`_CustomModelHandler._save_model`: dispatch the registry on the sub-model and
save it into the shared metadata. -/
def custom_sub_save_step
    (saveHandler : SupportedModel → String → ModelMetadata → String → FS →
      Except PyError (FS × ModelMetadata))
    (model_blobs_dir_path : String) (acc : Except PyError (FS × ModelMetadata))
    (p : String × SupportedModel) : Except PyError (FS × ModelMetadata) :=
  match acc with
  | .error e => .error e
  | .ok (fsa, meta) => saveHandler p.2 p.1 meta model_blobs_dir_path fsa

/-- Embeds `_CustomModelHandler._save_model` (`_handlers/custom.py` lines
20-57), parameterized by the `model_handler._find_handler` dispatch used to
save sub-models: copy each context artifact into the artifacts subdirectory,
save sub-models, cloudpickle the model itself, then record the blob metadata
whose artifact paths join the artifacts subdirectory with the basename of
each source URI. A non-custom model fails the `isinstance` assertion. -/
def custom_save_model
    (saveHandler : SupportedModel → String → ModelMetadata → String → FS →
      Except PyError (FS × ModelMetadata))
    (name : String) (model : SupportedModel) (model_meta : ModelMetadata)
    (model_blobs_dir_path : String) (fs : FS) :
    Except PyError (FS × ModelMetadata) :=
  match model with
  | .customModel artifacts model_refs =>
    let model_blob_path := pathJoin model_blobs_dir_path name
    let artifacts_path := pathJoin model_blob_path MODEL_ARTIFACTS_DIR
    let copied := artifacts.foldl (custom_copy_step artifacts_path)
      (.ok fs : Except PyError FS)
    match copied with
    | .error e => .error e
    | .ok fs1 =>
      let saved := model_refs.foldl (custom_sub_save_step saveHandler model_blobs_dir_path)
        (.ok (fs1, model_meta) : Except PyError (FS × ModelMetadata))
      match saved with
      | .error e => .error e
      | .ok (fs2, meta2) =>
        let fs3 := FS.write fs2 (pathJoin model_blob_path CUSTOM_MODEL_BLOB_FILE)
          (.pickleBlob (model_refs.map (fun p => p.1)))
        let meta3 : ModelMetadata :=
          { meta2 with
            models := assocSet meta2.models name
              { name := name
                model_type := "custom"
                path := CUSTOM_MODEL_BLOB_FILE
                artifacts := artifacts.map
                  (fun p => (p.1, pathJoin MODEL_ARTIFACTS_DIR (basename p.2))) } }
        .ok (fs3, meta3)
  | _ => .error .assertionError

/-! ## Save-time signature validation (modelled) -/

/-- Modelled from the spec: `model_meta._get_target_methods` and
`_validate_signature` are not under src/ (only their tests and the handler
callers are). Per the spec, "every method name in `signatures` must
correspond to a real callable on the packaged model (validated at save
time)", and a `ValueError` names the offending method. -/
def validate_target_methods (modelMethods : List String)
    (methodNames : List String) : Except PyError Unit :=
  match methodNames.find? (fun m => !(modelMethods.contains m)) with
  | some m =>
    .error (.valueError ("Target method " ++ m ++ " does not exist in the model."))
  | none => .ok ()

/-- Modelled from the spec: the save-time orchestration validates the declared
or targeted signature method names against the model callables before any
blob write; the blob write itself is abstracted as `writeBlob`. -/
def save_with_signatures (modelMethods : List String)
    (sigs : List (String × ModelSignature)) (writeBlob : FS → FS) (fs : FS) :
    FS × Except PyError Unit :=
  match validate_target_methods modelMethods (sigs.map (fun p => p.1)) with
  | .error e => (fs, .error e)
  | .ok _ => (writeBlob fs, .ok ())

/-! ## The sklearn handler (modelled) for the round-trip scenario -/

/-- Modelled from the spec: the sklearn handler and `LinearRegression` are not
under src/ (only `sklearn_test.py` is). A fitted linear-regression-like model
is its coefficient vector and intercept; `predict` on one row is the dot
product plus the intercept. Rationals stand in for the binary floats, which
pickle round-trips bit for bit. -/
structure LinearRegression where
  coef : List ℚ
  intercept : ℚ
deriving DecidableEq

def LinearRegression.predict (m : LinearRegression) (row : List ℚ) : ℚ :=
  ((m.coef.zip row).map (fun p => p.1 * p.2)).sum + m.intercept

/-- Modelled from the spec: the sklearn handler `_save_model` serializes the
fitted estimator by value into the model blob file. -/
def sklearn_save_model (name : String) (model : LinearRegression)
    (model_blobs_dir_path : String) (fs : FS) : FS :=
  FS.write fs (pathJoin (pathJoin model_blobs_dir_path name) CUSTOM_MODEL_BLOB_FILE)
    (.sklearnBlob model.coef model.intercept)

/-- Modelled from the spec: the sklearn handler `_load_model` deserializes the
estimator from the model blob file. -/
def sklearn_load_model (name : String) (model_blobs_dir_path : String) (fs : FS) :
    Except PyError LinearRegression :=
  match fs.read (pathJoin (pathJoin model_blobs_dir_path name) CUSTOM_MODEL_BLOB_FILE) with
  | some (.sklearnBlob c i) => .ok ⟨c, i⟩
  | some _ => .error .unpicklingError
  | none =>
    .error (.fileNotFoundError
      (pathJoin (pathJoin model_blobs_dir_path name) CUSTOM_MODEL_BLOB_FILE))

/-! ## Concrete bundles used by the witnesses -/

/-- A concrete torch module with `predict` and `predict_proba` methods. -/
def demoTorchModule : PyTorchModule :=
  { isTorchNNModule := true
    isTorchScriptModule := false
    methods :=
      [("predict", fun ts => .tensors ts),
       ("predict_proba", fun ts => .tensors ts)] }

/-- A concrete signature over one input and one output feature. -/
def demoSig : ModelSignature := ⟨[⟨"c1"⟩], [⟨"output"⟩]⟩

/-- Metadata declaring the methods `predict` and `predict_proba` for the
bundle model `m`. -/
def demoMeta : ModelMetadata :=
  { models := [("m", ⟨"m", "pytorch", "model.pt", []⟩)]
    signatures := [("predict", demoSig), ("predict_proba", demoSig)] }

/-- A file system holding the torch blob of `demoMeta` at the expected path. -/
def demoFS : FS := [("models/m/model.pt", .torchBlob demoTorchModule)]

/-- The wrapper obtained by loading the demo bundle as a custom model. -/
def demoLoadedWrapper : CustomModelWrapper :=
  match (pytorch_load_as_custom_model "m" demoMeta "models" false demoFS).2.2 with
  | .ok w => w
  | .error _ => ⟨[]⟩

/-- Source files for two artifacts that share the basename `x.bin`. -/
def demoArtifactFS : FS :=
  [("srca/x.bin", .fileBlob "A"), ("srcb/x.bin", .fileBlob "B")]

/-- A sub-model save dispatch that saves nothing (the demo context owns no
sub-models). -/
def demoSaveHandler (_ : SupportedModel) (_ : String) (meta : ModelMetadata)
    (_ : String) (fs : FS) : Except PyError (FS × ModelMetadata) := .ok (fs, meta)

/-- Saving a custom model whose two artifacts collide on basename. -/
def demoSaveResult : Except PyError (FS × ModelMetadata) :=
  custom_save_model demoSaveHandler "m"
    (.customModel [("a1", "srca/x.bin"), ("a2", "srcb/x.bin")] [])
    ⟨[], []⟩ "models" demoArtifactFS

def demoSavedFS : FS :=
  match demoSaveResult with
  | .ok p => p.1
  | .error _ => []

def demoSavedMeta : ModelMetadata :=
  match demoSaveResult with
  | .ok p => p.2
  | .error _ => ⟨[], []⟩

/-! ## Helper lemmas -/

theorem lookupA_cons {α : Type} (k0 : String) (v0 : α) (rest : List (String × α))
    (k : String) :
    lookupA ((k0, v0) :: rest) k = if (k0 == k) = true then some v0 else lookupA rest k := by
  by_cases h : (k0 == k) = true <;> simp [lookupA, List.find?_cons, h]

theorem FS.read_write_self (fs : FS) (p : String) (b : Blob) :
    (FS.write fs p b).read p = some b := by
  simp [FS.read, FS.write, List.find?_cons]

theorem findDuplicateDep_isSome_of_any (deps : CondaDeps) (p : Requirement)
    (h : deps.any (fun c => c.2.any (fun r => _check_if_requirement_same p r)) = true) :
    ∃ x, findDuplicateDep deps p = some x := by
  induction deps with
  | nil => simp at h
  | cons hd tl ih =>
    obtain ⟨chan, reqs⟩ := hd
    simp only [List.any_cons, Bool.or_eq_true] at h
    unfold findDuplicateDep
    rcases hfind : reqs.find? (fun req => _check_if_requirement_same p req) with _ | req
    · rcases h with h | h
      · exfalso
        simp only [List.any_eq_true] at h
        obtain ⟨r, hr, hpr⟩ := h
        exact List.find?_eq_none.mp hfind r hr hpr
      · exact ih h
    · exact ⟨(chan, req), rfl⟩

theorem append_conda_dependency_error_of_dup (deps : CondaDeps) (chan : String)
    (req : Requirement)
    (h : deps.any (fun c => c.2.any (fun r => _check_if_requirement_same req r)) = true) :
    ∃ e, append_conda_dependency deps (chan, req) = .error e := by
  obtain ⟨x, hx⟩ := findDuplicateDep_isSome_of_any deps req h
  obtain ⟨c, r⟩ := x
  simp only [append_conda_dependency, hx]
  split
  · exact ⟨_, rfl⟩
  · exact ⟨_, rfl⟩

/-! ## C5 -/

/-- C5: adding a requirement whose package name is already present in the
metadata dependency collection leaves the collection unchanged and raises no
error: the duplicate error of the primitive `append_conda_dependency` is
swallowed by `_include_if_absent` and the add is a no-op. -/
theorem include_if_absent_idempotent_on_present (deps : CondaDeps) (chan : String)
    (req : Requirement)
    (h : deps.any (fun c => c.2.any (fun r => _check_if_requirement_same req r)) = true) :
    _include_if_absent deps (chan, req) = deps := by
  obtain ⟨e, he⟩ := append_conda_dependency_error_of_dup deps chan req h
  unfold _include_if_absent
  rw [he]

/-- C5 witness: adding `pytorch` when `pytorch` is already in the default
channel leaves the dependency dict unchanged. -/
theorem include_if_absent_idempotent_on_present_witness :
    _include_if_absent [("", [⟨"pytorch", fun _ => true⟩])] ("", ⟨"pytorch", fun _ => true⟩)
      = [("", [⟨"pytorch", fun _ => true⟩])] :=
  include_if_absent_idempotent_on_present _ _ _ (by rfl)

/-! ## C2 -/

/-- C2: `_PyTorchHandler.can_handle` holds exactly for `torch.nn.Module`
instances that are not `torch.jit.ScriptModule` instances, and every
`ScriptModule` instance (which is also an `nn.Module` instance, as the
witness exhibits) is rejected. -/
theorem pytorch_can_handle_characterization (model : SupportedModel) :
    (pytorch_can_handle model = true ↔
      isTorchNNModuleInstance model = true ∧ isTorchScriptModuleInstance model = false) ∧
    (isTorchScriptModuleInstance model = true → pytorch_can_handle model = false) := by
  constructor
  · simp [pytorch_can_handle]
  · intro h
    simp [pytorch_can_handle, h]

/-- C2 witness: a `ScriptModule` instance which, by subclassing, is also an
`nn.Module` instance is rejected by `can_handle`. -/
theorem pytorch_can_handle_characterization_witness :
    pytorch_can_handle (.torchModel ⟨true, true, []⟩) = false :=
  (pytorch_can_handle_characterization (.torchModel ⟨true, true, []⟩)).2 rfl

/-! ## C6 -/

/-- C6: a synthesized uniform-wrapper method on a data frame containing a null
raises the `ValueError` immediately: the result is the error and the run
performed neither the conversion to tensors nor the native method call. -/
theorem null_input_rejected_before_native_call (raw_model : PyTorchModule)
    (signature : ModelSignature) (target_method : String) (use_gpu : Bool)
    (X : DataFrame) (h : X.hasNull = true) :
    (pytorch_custom_fn raw_model signature target_method use_gpu X).1
        = .error (.valueError "Tensor cannot handle null values.") ∧
    (pytorch_custom_fn raw_model signature target_method use_gpu X).2 = [] := by
  simp [pytorch_custom_fn, h]

/-- C6 witness: a single-column frame holding one null is rejected with no
observable conversion or native-call event. -/
theorem null_input_rejected_before_native_call_witness :
    (pytorch_custom_fn demoTorchModule demoSig "predict" false ⟨[("c1", [none])]⟩).2
      = [] :=
  (null_input_rejected_before_native_call demoTorchModule demoSig "predict" false
    ⟨[("c1", [none])]⟩ rfl).2

/-! ## C9 -/

theorem cacheExtends_refl (c : PkgCache) : cacheExtends c c :=
  fun n vs h => ⟨[], by simpa using h⟩

theorem cacheExtends_trans {a b c : PkgCache} (h1 : cacheExtends a b)
    (h2 : cacheExtends b c) : cacheExtends a c := by
  intro n vs h
  obtain ⟨ws, hb⟩ := h1 n vs h
  obtain ⟨xs, hc⟩ := h2 n _ hb
  exact ⟨ws ++ xs, by rw [hc, List.append_assoc]⟩

theorem cacheAppendRow_extends (c : PkgCache) (n : String) (v : Version) :
    cacheExtends c (cacheAppendRow c n v) := by
  induction c with
  | nil => intro k vs h; simp [lookupA] at h
  | cons hd tl ih =>
    obtain ⟨m, vs0⟩ := hd
    intro k vs h
    rw [lookupA_cons] at h
    by_cases hmn : (m == n) = true
    · rw [cacheAppendRow, if_pos hmn]
      by_cases hmk : (m == k) = true
      · rw [if_pos hmk] at h
        exact ⟨[v], by rw [lookupA_cons, if_pos hmk, Option.some_inj.mp h]⟩
      · rw [if_neg hmk] at h
        exact ⟨[], by rw [lookupA_cons, if_neg hmk]; simpa using h⟩
    · rw [cacheAppendRow, if_neg hmn]
      by_cases hmk : (m == k) = true
      · rw [if_pos hmk] at h
        exact ⟨[], by rw [lookupA_cons, if_pos hmk]; simpa using h⟩
      · rw [if_neg hmk] at h
        obtain ⟨ws, hw⟩ := ih k vs h
        exact ⟨ws, by rw [lookupA_cons, if_neg hmk]; exact hw⟩

theorem cacheExtends_foldl (rows : List (String × Version)) (c : PkgCache) :
    cacheExtends c (rows.foldl (fun c row => cacheAppendRow c row.1 row.2) c) := by
  induction rows generalizing c with
  | nil => exact cacheExtends_refl c
  | cons r rs ih =>
    exact cacheExtends_trans (cacheAppendRow_extends c r.1 r.2) (ih _)

/-- C9: across one validation call, the package cache is append-only (every
entry keeps its versions, possibly gaining more), and every requirement whose
name misses the cache is put on the live-lookup request list rather than
treated as unavailable. -/
theorem conda_package_cache_append_only (cache : PkgCache)
    (reqs : List Requirement) (queryRows : Option (List (String × Version))) :
    cacheExtends cache
      (validate_requirements_in_snowflake_conda_channel cache reqs queryRows).1 ∧
    ∀ req ∈ reqs, lookupA cache req.name = none →
      req ∈ (validate_requirements_in_snowflake_conda_channel cache reqs queryRows).2.1 := by
  constructor
  · unfold validate_requirements_in_snowflake_conda_channel
    dsimp only
    split
    · exact cacheExtends_refl cache
    · cases queryRows with
      | none => exact cacheExtends_refl cache
      | some rows => exact cacheExtends_foldl rows cache
  · intro req hmem hnone
    have hsel : (validate_requirements_in_snowflake_conda_channel cache reqs queryRows).2.1
        = reqs.filter (fun req => (lookupA cache req.name).isNone) := by
      unfold validate_requirements_in_snowflake_conda_channel
      dsimp only
      split
      · rfl
      · cases queryRows with
        | none => rfl
        | some rows => rfl
    rw [hsel]
    exact List.mem_filter.mpr ⟨hmem, by simp [hnone]⟩

/-- C9 witness: with `numpy` cached and `pandas` absent, the `pandas`
requirement is sent to the live lookup. -/
theorem conda_package_cache_append_only_witness :
    (⟨"pandas", fun _ => true⟩ : Requirement) ∈
      (validate_requirements_in_snowflake_conda_channel
        [("numpy", ["1.24.0"])]
        [⟨"numpy", fun _ => true⟩, ⟨"pandas", fun _ => true⟩]
        (some [("pandas", "2.0.0")])).2.1 :=
  (conda_package_cache_append_only _ _ _).2 _
    (List.Mem.tail _ (List.Mem.head _)) rfl

/-! ## C7 -/

/-- C7: when loading as a uniform wrapper succeeds, the method table of the wrapper
carries exactly the method names of the metadata signature mapping — one
synthesized method per declared signature, no more and no fewer. -/
theorem wrapper_method_surface (name : String) (model_meta : ModelMetadata)
    (dir : String) (use_gpu : Bool) (fs : FS) (w : CustomModelWrapper)
    (h : (pytorch_load_as_custom_model name model_meta dir use_gpu fs).2.2 = .ok w) :
    w.methods.map (fun p => p.1) = model_meta.signatures.map (fun p => p.1) := by
  rcases hr : (pytorch_load_model name model_meta dir use_gpu fs).2.2 with e | m
  · simp [pytorch_load_as_custom_model, hr] at h
  · simp only [pytorch_load_as_custom_model, hr] at h
    injection h with h
    rw [← h]
    simp [List.map_map]

/-- C7 witness: the demo bundle declaring `predict` and `predict_proba` loads
to a wrapper exposing exactly those two method names. -/
theorem wrapper_method_surface_witness :
    demoLoadedWrapper.methods.map (fun p => p.1)
      = demoMeta.signatures.map (fun p => p.1) :=
  wrapper_method_surface "m" demoMeta "models" false demoFS demoLoadedWrapper rfl

/-! ## C3 -/

/-- C3 counterexample: at concrete bundles, the error raised for a model name
absent from the metadata is a `ValueError` while the error raised for a blob
file missing from disk is a `FileNotFoundError`; the two error classes
differ, so no single error class covers both situations as the claim
states. -/
theorem load_missing_error_classes_differ :
    (pytorch_load_model "m" ⟨[], []⟩ "models" false []).2.2
        = .error (.valueError "Blob of model m does not exist.") ∧
    (pytorch_load_model "m" ⟨[("m", ⟨"m", "pytorch", "model.pt", []⟩)], []⟩
        "models" false []).2.2
        = .error (.fileNotFoundError "models/m/model.pt") ∧
    (PyError.valueError "Blob of model m does not exist.").cls
        ≠ (PyError.fileNotFoundError "models/m/model.pt").cls :=
  ⟨rfl, rfl, by decide⟩

/-- C3 amended: for both handlers, a model name absent from the metadata
models mapping raises `ValueError` before any blob open is attempted, while a
referenced blob file missing from disk raises `FileNotFoundError` — a
different error class. -/
theorem load_missing_raises_before_open (fuel : Nat) (name dir : String)
    (model_meta : ModelMetadata) (use_gpu : Bool) (fs : FS) :
    (lookupA model_meta.models name = none →
      (pytorch_load_model name model_meta dir use_gpu fs).2.2
          = .error (.valueError ("Blob of model " ++ name ++ " does not exist.")) ∧
      (pytorch_load_model name model_meta dir use_gpu fs).2.1 = [] ∧
      (custom_load_model (load_model_by_type fuel) name model_meta dir fs).2.2
          = .error (.valueError ("Blob of model " ++ name ++ " does not exist.")) ∧
      (custom_load_model (load_model_by_type fuel) name model_meta dir fs).2.1 = []) ∧
    (∀ bm, lookupA model_meta.models name = some bm →
      fs.read (pathJoin (pathJoin dir name) bm.path) = none →
      (pytorch_load_model name model_meta dir use_gpu fs).2.2
          = .error (.fileNotFoundError (pathJoin (pathJoin dir name) bm.path)) ∧
      (custom_load_model (load_model_by_type fuel) name model_meta dir fs).2.2
          = .error (.fileNotFoundError (pathJoin (pathJoin dir name) bm.path)) ∧
      (PyError.fileNotFoundError (pathJoin (pathJoin dir name) bm.path)).cls
          ≠ (PyError.valueError ("Blob of model " ++ name ++ " does not exist.")).cls) := by
  constructor
  · intro h
    refine ⟨?_, ?_, ?_, ?_⟩ <;>
      simp [pytorch_load_model, custom_load_model, h]
  · intro bm hbm hread
    refine ⟨?_, ?_, fun hcl => PyErrorClass.noConfusion hcl⟩ <;>
      simp [pytorch_load_model, custom_load_model, hbm, hread]

/-- C3 witness for the amended statement: at the two concrete bundles, the
missing-name load opens nothing. -/
theorem load_missing_raises_before_open_witness :
    (pytorch_load_model "m" ⟨[], []⟩ "models" false []).2.1 = [] :=
  ((load_missing_raises_before_open 1 "m" "models" ⟨[], []⟩ false []).1 rfl).2.1

/-! ## C8 -/

theorem pytorch_load_model_fs (name : String) (model_meta : ModelMetadata)
    (dir : String) (use_gpu : Bool) (fs : FS) :
    (pytorch_load_model name model_meta dir use_gpu fs).1 = fs := by
  unfold pytorch_load_model
  rcases lookupA model_meta.models name with _ | bm
  · rfl
  · dsimp only
    rcases fs.read (pathJoin (pathJoin dir name) bm.path) with _ | b
    · rfl
    · cases b with
      | torchBlob m => dsimp only; split <;> split <;> rfl
      | pickleBlob refNames => rfl
      | sklearnBlob c i => rfl
      | fileBlob content => rfl

theorem custom_load_sub_step_fs
    (loadHandler : String → String → ModelMetadata → String → FS →
      FS × List String × Except PyError LoadedModel)
    (hLH : ∀ mt n meta dir fs, (loadHandler mt n meta dir fs).1 = fs)
    (model_meta : ModelMetadata) (dir : String) (acc : SubLoadAcc) (nm : String) :
    (custom_load_sub_step loadHandler model_meta dir acc nm).1 = acc.1 := by
  obtain ⟨fsa, opens, r⟩ := acc
  cases r with
  | error e => rfl
  | ok models =>
    unfold custom_load_sub_step
    dsimp only
    rcases lookupA model_meta.models nm with _ | subMeta
    · rfl
    · dsimp only
      rcases hs : (loadHandler subMeta.model_type nm model_meta dir fsa).2.2 with e | sub <;>
        simp [hLH subMeta.model_type nm model_meta dir fsa]

theorem custom_load_fold_fs
    (loadHandler : String → String → ModelMetadata → String → FS →
      FS × List String × Except PyError LoadedModel)
    (hLH : ∀ mt n meta dir fs, (loadHandler mt n meta dir fs).1 = fs)
    (model_meta : ModelMetadata) (dir : String) :
    ∀ (refNames : List String) (acc : SubLoadAcc),
      (refNames.foldl (custom_load_sub_step loadHandler model_meta dir) acc).1 = acc.1 := by
  intro refNames
  induction refNames with
  | nil => intro acc; rfl
  | cons nm rest ih =>
    intro acc
    rw [List.foldl_cons, ih (custom_load_sub_step loadHandler model_meta dir acc nm),
      custom_load_sub_step_fs loadHandler hLH model_meta dir acc nm]

theorem custom_load_model_fs
    (loadHandler : String → String → ModelMetadata → String → FS →
      FS × List String × Except PyError LoadedModel)
    (hLH : ∀ mt n meta dir fs, (loadHandler mt n meta dir fs).1 = fs)
    (name : String) (model_meta : ModelMetadata) (dir : String) (fs : FS) :
    (custom_load_model loadHandler name model_meta dir fs).1 = fs := by
  unfold custom_load_model
  rcases lookupA model_meta.models name with _ | bm
  · rfl
  · dsimp only
    rcases fs.read (pathJoin (pathJoin dir name) bm.path) with _ | b
    · rfl
    · cases b with
      | pickleBlob refNames =>
        dsimp only
        have hfold := custom_load_fold_fs loadHandler hLH model_meta dir refNames
          ((fs, [pathJoin (pathJoin dir name) bm.path], .ok []) : SubLoadAcc)
        rcases hacc : refNames.foldl (custom_load_sub_step loadHandler model_meta dir)
            ((fs, [pathJoin (pathJoin dir name) bm.path], .ok []) : SubLoadAcc)
          with ⟨fsr, opens, r⟩
        rw [hacc] at hfold
        cases r <;> exact hfold
      | torchBlob m => rfl
      | sklearnBlob c i => rfl
      | fileBlob content => rfl

theorem load_model_by_type_fs : ∀ (fuel : Nat) (mt name : String)
    (model_meta : ModelMetadata) (dir : String) (fs : FS),
    (load_model_by_type fuel mt name model_meta dir fs).1 = fs := by
  intro fuel
  induction fuel with
  | zero => intros; rfl
  | succ n ih =>
    intro mt name model_meta dir fs
    unfold load_model_by_type
    by_cases h1 : (mt == "custom") = true
    · rw [if_pos h1]
      exact custom_load_model_fs (load_model_by_type n)
        (fun mt2 n2 meta2 dir2 fs2 => ih mt2 n2 meta2 dir2 fs2)
        name model_meta dir fs
    · rw [if_neg h1]
      by_cases h2 : (mt == "pytorch") = true
      · rw [if_pos h2]
        exact pytorch_load_model_fs name model_meta dir false fs
      · rw [if_neg h2]

/-- C8: every load path — the native torch load, the registry-dispatched load
(custom handler with its recursive sub-model loads included), and the
load-as-uniform-wrapper — returns the file system it was given: loads read
blobs but never write, create, or delete files, so the on-disk bundle is
unchanged. -/
theorem load_reads_only (fuel : Nat) (model_type name : String)
    (model_meta : ModelMetadata) (dir : String) (use_gpu : Bool) (fs : FS) :
    (pytorch_load_model name model_meta dir use_gpu fs).1 = fs ∧
    (load_model_by_type fuel model_type name model_meta dir fs).1 = fs ∧
    (pytorch_load_as_custom_model name model_meta dir use_gpu fs).1 = fs := by
  refine ⟨pytorch_load_model_fs name model_meta dir use_gpu fs,
    load_model_by_type_fs fuel model_type name model_meta dir fs, ?_⟩
  unfold pytorch_load_as_custom_model
  rcases hr : (pytorch_load_model name model_meta dir use_gpu fs).2.2 with e | m <;>
    simp [hr, pytorch_load_model_fs name model_meta dir use_gpu fs]

/-! ## C4 -/

/-- C4: when some declared or targeted signature method name is not a callable
of the model, save fails during validation with a `ValueError` naming that
method, before any blob write (the file system is untouched); and the check
is never deferred to load time — the load result does not depend on the
signature mapping at all. -/
theorem save_time_method_validation (modelMethods : List String)
    (sigs : List (String × ModelSignature)) (writeBlob : FS → FS) (fs : FS)
    (h : (sigs.map (fun p => p.1)).any (fun m => !(modelMethods.contains m)) = true) :
    (∃ m, m ∈ sigs.map (fun p => p.1) ∧ modelMethods.contains m = false ∧
      (save_with_signatures modelMethods sigs writeBlob fs).2
          = .error (.valueError ("Target method " ++ m ++ " does not exist in the model.")) ∧
      (save_with_signatures modelMethods sigs writeBlob fs).1 = fs) ∧
    (∀ (models : List (String × ModelBlobMetadata))
        (s1 s2 : List (String × ModelSignature)) (name dir : String) (use_gpu : Bool)
        (fs2 : FS),
      pytorch_load_model name ⟨models, s1⟩ dir use_gpu fs2
        = pytorch_load_model name ⟨models, s2⟩ dir use_gpu fs2) := by
  constructor
  · rcases hfind : (sigs.map (fun p => p.1)).find? (fun m => !(modelMethods.contains m))
      with _ | m0
    · exfalso
      simp only [List.any_eq_true] at h
      obtain ⟨m, hm, hp⟩ := h
      exact List.find?_eq_none.mp hfind m hm hp
    · refine ⟨m0, List.mem_of_find?_eq_some hfind, ?_, ?_, ?_⟩
      · have := List.find?_some hfind
        simpa using this
      · unfold save_with_signatures validate_target_methods
        rw [hfind]
      · unfold save_with_signatures validate_target_methods
        rw [hfind]
  · intro models s1 s2 name dir use_gpu fs2
    rfl

/-- C4 witness: declaring `another_predict` on a model that only implements
`predict` makes save fail at validation time, naming the offending method. -/
theorem save_time_method_validation_witness :
    ∃ m, m ∈ ([("predict", demoSig), ("another_predict", demoSig)].map (fun p => p.1)) ∧
      (["predict"].contains m = false) ∧
      (save_with_signatures ["predict"]
          [("predict", demoSig), ("another_predict", demoSig)] id []).2
        = .error (.valueError ("Target method " ++ m ++ " does not exist in the model.")) ∧
      (save_with_signatures ["predict"]
          [("predict", demoSig), ("another_predict", demoSig)] id []).1 = [] :=
  (save_time_method_validation ["predict"]
    [("predict", demoSig), ("another_predict", demoSig)] id [] rfl).1

/-! ## C1 -/

/-- C1: reloading a saved linear-regression-like model reproduces the pre-save
prediction on any row within the `1e-6` absolute tolerance (the reload is
exact, so the difference is zero). -/
theorem round_trip_prediction_identity (name dir : String)
    (model : LinearRegression) (fs : FS) (row : List ℚ) (loaded : LinearRegression)
    (h : sklearn_load_model name dir (sklearn_save_model name model dir fs) = .ok loaded) :
    |loaded.predict row - model.predict row| ≤ 1 / 1000000 := by
  have hload : sklearn_load_model name dir (sklearn_save_model name model dir fs)
      = .ok ⟨model.coef, model.intercept⟩ := by
    unfold sklearn_load_model sklearn_save_model
    rw [FS.read_write_self]
  rw [h] at hload
  injection hload with hl
  have hpred : loaded.predict row = model.predict row := by
    rw [hl]
  rw [hpred, sub_self, abs_zero]
  norm_num

/-- C1 witness: a 4-coefficient model saved and reloaded predicts identically
on a single row, within `1e-6`. -/
theorem round_trip_prediction_identity_witness :
    |(⟨[2, -1, 3, 1], 5⟩ : LinearRegression).predict [1, 2, 3, 4]
        - (⟨[2, -1, 3, 1], 5⟩ : LinearRegression).predict [1, 2, 3, 4]| ≤ 1 / 1000000 :=
  round_trip_prediction_identity "model1" "models" ⟨[2, -1, 3, 1], 5⟩ []
    [1, 2, 3, 4] ⟨[2, -1, 3, 1], 5⟩ rfl

/-! ## C10 -/

theorem lookupA_assocSet_self {α : Type} (l : List (String × α)) (k : String) (v : α) :
    lookupA (assocSet l k v) k = some v := by
  induction l with
  | nil => simp [assocSet, lookupA]
  | cons hd tl ih =>
    obtain ⟨k0, v0⟩ := hd
    by_cases h : (k0 == k) = true
    · simp only [assocSet, if_pos h]
      rw [lookupA_cons, if_pos h]
    · simp only [assocSet, if_neg h]
      rw [lookupA_cons, if_neg h]
      exact ih

theorem FS.read_write (fs : FS) (p q : String) (b : Blob) :
    (FS.write fs p b).read q = if (p == q) = true then some b else fs.read q := by
  by_cases h : (p == q) = true <;> simp [FS.read, FS.write, List.find?_cons, h]

theorem pathJoin_length (a b : String) :
    (pathJoin a b).length = a.length + 1 + b.length := by
  have h1 : ("/" : String).length = 1 := rfl
  simp [pathJoin, String.length_append, h1]

theorem blob_file_ne_artifact_path (dir name bn : String) :
    (pathJoin (pathJoin dir name) CUSTOM_MODEL_BLOB_FILE
      == pathJoin (pathJoin (pathJoin dir name) MODEL_ARTIFACTS_DIR) bn) = false := by
  apply beq_eq_false_iff_ne.mpr
  intro heq
  have hlen := congrArg String.length heq
  simp only [pathJoin_length] at hlen
  have h1 : (CUSTOM_MODEL_BLOB_FILE : String).length = 9 := rfl
  have h2 : (MODEL_ARTIFACTS_DIR : String).length = 9 := rfl
  rw [h1, h2] at hlen
  omega

/-- C10: a successful custom-handler save records, for every context
artifact, the artifacts subdirectory joined with the basename of the
source URI of the artifact in the blob metadata; two artifacts with equal
basenames therefore resolve to the same bundle path, and in that case the
later copy is what the bundle holds at the shared path. -/
theorem custom_save_artifact_paths
    (saveHandler : SupportedModel → String → ModelMetadata → String → FS →
      Except PyError (FS × ModelMetadata))
    (name : String) (arts : List (String × String))
    (refs : List (String × SupportedModel)) (model_meta : ModelMetadata)
    (dir : String) (fs fs' : FS) (meta' : ModelMetadata)
    (h : custom_save_model saveHandler name (.customModel arts refs) model_meta dir fs
      = .ok (fs', meta')) :
    (∃ bm, lookupA meta'.models name = some bm ∧
      bm.artifacts = arts.map
        (fun p => (p.1, pathJoin MODEL_ARTIFACTS_DIR (basename p.2)))) ∧
    (∀ p q, p ∈ arts → q ∈ arts → basename p.2 = basename q.2 →
      pathJoin MODEL_ARTIFACTS_DIR (basename p.2)
        = pathJoin MODEL_ARTIFACTS_DIR (basename q.2)) ∧
    (∀ n1 u1 n2 u2 (b1 b2 : Blob),
      arts = [(n1, u1), (n2, u2)] → refs = [] →
      basename u1 = basename u2 →
      fs.read u1 = some b1 →
      (FS.write fs
          (pathJoin (pathJoin (pathJoin dir name) MODEL_ARTIFACTS_DIR) (basename u1))
          b1).read u2 = some b2 →
      fs'.read (pathJoin (pathJoin (pathJoin dir name) MODEL_ARTIFACTS_DIR) (basename u2))
        = some b2) := by
  refine ⟨?_, ?_, ?_⟩
  · rcases hc : arts.foldl
        (custom_copy_step (pathJoin (pathJoin dir name) MODEL_ARTIFACTS_DIR))
        (.ok fs : Except PyError FS) with e | fs1
    · simp only [custom_save_model, hc] at h
      exact absurd h (by simp)
    · rcases hs : refs.foldl (custom_sub_save_step saveHandler dir)
          (.ok (fs1, model_meta) : Except PyError (FS × ModelMetadata)) with e2 | p2
      · simp only [custom_save_model, hc, hs] at h
        exact absurd h (by simp)
      · obtain ⟨fs2, meta2⟩ := p2
        simp only [custom_save_model, hc, hs] at h
        injection h with h
        injection h with hfs hmeta
        rw [← hmeta]
        exact ⟨_, lookupA_assocSet_self _ _ _, rfl⟩
  · intro p q _ _ hbase
    rw [hbase]
  · intro n1 u1 n2 u2 b1 b2 ha hr hbase hr1 hr2
    subst ha hr
    simp only [custom_save_model, List.foldl, custom_copy_step, copy_file_or_tree,
      hr1, hr2] at h
    injection h with h
    injection h with hfs hmeta
    rw [← hfs]
    simp [FS.read_write, blob_file_ne_artifact_path, FS.read_write_self]

/-- C10 witness: saving the demo context whose two artifacts both have
basename `x.bin` leaves the content of the second artifact at the shared
bundle path. -/
theorem custom_save_artifact_paths_witness :
    demoSavedFS.read
        (pathJoin (pathJoin (pathJoin "models" "m") MODEL_ARTIFACTS_DIR)
          (basename "srcb/x.bin"))
      = some (.fileBlob "B") :=
  (custom_save_artifact_paths demoSaveHandler "m"
      [("a1", "srca/x.bin"), ("a2", "srcb/x.bin")] [] ⟨[], []⟩ "models"
      demoArtifactFS demoSavedFS demoSavedMeta rfl).2.2
    "a1" "srca/x.bin" "a2" "srcb/x.bin" (.fileBlob "A") (.fileBlob "B")
    rfl rfl rfl rfl rfl

end SnowML
